import Mathlib

/-!
Verification of the jpeg-segments metadata extractor (exiferino.py,
jpegdata.py) against its natural-language specification.

The Python source is shallowly embedded: a file is a `List Nat` of byte
values, a file handle's position is an explicit `Nat`, and every
sequential `read(n)` is `readBytes file pos n` followed by advancing the
position by the number of bytes actually returned (Python `read` returns
fewer bytes at end of file).  Fallible operations return `Option`;
`none` models a Python exception or a `None` return value that a caller
would subsequently misuse.  Unbounded `while` loops are embedded with an
explicit fuel parameter.
-/

namespace JpegSegments

/-- Python `filehandle.read(n)` at position `pos`: up to `n` bytes. -/
def readBytes (file : List Nat) (pos n : Nat) : List Nat :=
  (file.drop pos).take n

/-- The byte-alignment setting of an `ExifDecoder`: `le` is the source's
`'<'` (Intel little-endian), `be` is `'>'` (Motorola big-endian). -/
inductive ByteOrder where
  | le
  | be
deriving DecidableEq, Repr

/-- Python `struct.unpack(byteorder ++ "H", bs)[0]` for a 2-byte string
(only called by the source on byte strings of exactly this length). -/
def unpackU16 : ByteOrder → List Nat → Nat
  | .le, [a, b] => a + 256 * b
  | .be, [a, b] => 256 * a + b
  | _, _ => 0

/-- Python `struct.unpack(byteorder ++ "I", bs)[0]` for a 4-byte string. -/
def unpackU32 : ByteOrder → List Nat → Nat
  | .le, [a, b, c, d] => a + 256 * b + 65536 * c + 16777216 * d
  | .be, [a, b, c, d] => 16777216 * a + 65536 * b + 256 * c + d
  | _, _ => 0

namespace ExifDecoder

/-- Source `ExifDecoder.decode_bytes` (exiferino.py lines 564-575).  An empty
byte string yields 0, a 2-byte string is unpacked as `'H'`, a 4-byte
string as `'I'`; any other length prints an error message and falls off
the end of the function, returning Python `None` (modelled as `none`). -/
def decode_bytes (byteorder : ByteOrder) (byte_string : List Nat) : Option Nat :=
  if byte_string.length = 0 then some 0
  else if byte_string.length = 2 then some (unpackU16 byteorder byte_string)
  else if byte_string.length = 4 then some (unpackU32 byteorder byte_string)
  else none

/-- Result of `ExifDecoder.set_byteorder`: the byte order that was set,
and whether the invalid-endian warning was printed. -/
structure SetByteOrderResult where
  byteorder : ByteOrder
  warned : Bool
deriving DecidableEq, Repr

/-- Source `ExifDecoder.set_byteorder` (exiferino.py lines 542-562), bytealign
path (the `filename` parameter, which re-reads the alignment from a
file, is not modelled; it only changes where `bytealign` comes from).
`b'II'` is `[0x49, 0x49]` and `b'MM'` is `[0x4d, 0x4d]`.  A value that
is neither prints a warning; the order is then `'<'` exactly for
`b'II'` and `'>'` for everything else. -/
def set_byteorder (bytealign : List Nat) : SetByteOrderResult :=
  { warned := if bytealign = [0x49, 0x49] ∨ bytealign = [0x4d, 0x4d] then false else true
    byteorder := if bytealign = [0x49, 0x49] then ByteOrder.le else ByteOrder.be }

end ExifDecoder

/-- A Python value as stored by this program: a string, an int, `None`,
a raw bytes object (the `str(stored_bytes)` fallback is kept opaque as
the bytes themselves), or an exception raised while producing the value. -/
inductive Py where
  | str (v : String)
  | int (v : Nat)
  | none
  | raw (bs : List Nat)
  | err
deriving DecidableEq, Repr

/-- Python `str(x)` applied to the result of `decode_bytes` (an int, or
`None` for an invalid-length byte string; `str(None)` is `"None"`). -/
def pyStrOfOpt : Option Nat → String
  | some n => Nat.repr n
  | Option.none => "None"

/-- Source `exifdata_tostring` (exiferino.py lines 32-91).  The data type
arrives from `decode_bytes`, so it is an `Option Nat` (`none` models the
Python `None` a short read can produce; `None == k` is false, so it
falls to the final else branch, like any unknown type code).
Branches faithful to the source:
type 1 unpacks `'B'` (exactly one byte, else `struct.error`);
type 2 masks each byte with `0b01111111` and concatenates characters;
types 3/4/8/9 stringify `decode_bytes` of the first 2 or 4 bytes —
note the source uses the *unsigned* decoder for types 8 and 9 as well,
although its own comments call them 2s-complement signed;
types 5/10 render `"numerator/denominator"` from bytes 0-3 and 4-7;
type 6 calls `struct.unpack_from('b', stored_bytes[0])`, which raises
`TypeError` in Python 3 (an int is not a buffer);
type 7 is `stored_bytes[0]`, an int (`IndexError` when empty);
anything else returns `str(stored_bytes)`, kept as the raw bytes. -/
def exifdata_tostring (stored_bytes : List Nat) (datatype : Option Nat)
    (byteorder : ByteOrder) : Py :=
  if datatype = some 1 then
    match stored_bytes with
    | [b] => Py.str (Nat.repr b)
    | _ => Py.err
  else if datatype = some 2 then
    Py.str (String.mk (stored_bytes.map (fun b => Char.ofNat (b &&& 0b01111111))))
  else if datatype = some 3 then
    Py.str (pyStrOfOpt (ExifDecoder.decode_bytes byteorder (stored_bytes.take 2)))
  else if datatype = some 4 then
    Py.str (pyStrOfOpt (ExifDecoder.decode_bytes byteorder (stored_bytes.take 4)))
  else if datatype = some 5 then
    Py.str (pyStrOfOpt (ExifDecoder.decode_bytes byteorder (stored_bytes.take 4))
            ++ "/"
            ++ pyStrOfOpt (ExifDecoder.decode_bytes byteorder ((stored_bytes.drop 4).take 4)))
  else if datatype = some 6 then
    Py.err
  else if datatype = some 7 then
    match stored_bytes with
    | [] => Py.err
    | b :: _ => Py.int b
  else if datatype = some 8 then
    Py.str (pyStrOfOpt (ExifDecoder.decode_bytes byteorder (stored_bytes.take 2)))
  else if datatype = some 9 then
    Py.str (pyStrOfOpt (ExifDecoder.decode_bytes byteorder (stored_bytes.take 4)))
  else if datatype = some 10 then
    Py.str (pyStrOfOpt (ExifDecoder.decode_bytes byteorder (stored_bytes.take 4))
            ++ "/"
            ++ pyStrOfOpt (ExifDecoder.decode_bytes byteorder ((stored_bytes.drop 4).take 4)))
  else
    Py.raw stored_bytes

/-- Modelled from the spec: the signed 16-bit two's-complement value of
a 2-byte string under the given byte order ("8 SSHORT → signed 16-bit
via active byte order, decimal").  Used to compare the source's actual
rendering against the specified one. -/
def sshortValue (byteorder : ByteOrder) (bs : List Nat) : Int :=
  let u := unpackU16 byteorder bs
  if u < 32768 then (u : Int) else (u : Int) - 65536

/-- Modelled from the spec: the signed 32-bit two's-complement value of
a 4-byte string under the given byte order ("9 SLONG → signed 32-bit
via active byte order, decimal"). -/
def slongValue (byteorder : ByteOrder) (bs : List Nat) : Int :=
  let u := unpackU32 byteorder bs
  if u < 2147483648 then (u : Int) else (u : Int) - 4294967296

/-- Two lowercase hex digits of a byte, Python `'{:02x}'.format(b)`
(faithful for byte values `b < 256`, which is all `read` can return). -/
def hexByte (b : Nat) : List Char :=
  let digit := fun n => if n < 10 then Char.ofNat (48 + n) else Char.ofNat (87 + n)
  [digit (b / 16 % 16), digit (b % 16)]

/-- Segment descriptor returned by `seginfo` (jpegdata.py lines 27-84). -/
structure SegInfo where
  name : String
  has_data : Bool
  has_meta : Bool
deriving DecidableEq, Repr

/-- Source `seginfo` (jpegdata.py lines 27-84): the closed table from segment
marker to descriptor; an unknown marker yields its hex bytes plus `?`. -/
def seginfo (segment_marker : List Nat) : SegInfo :=
  if segment_marker = [0xff, 0x01] then ⟨"ff01", false, false⟩
  else if segment_marker = [0xff, 0xe0] then ⟨"APP0", true, true⟩
  else if segment_marker = [0xff, 0xe1] then ⟨"APP1", true, true⟩
  else if segment_marker = [0xff, 0xe2] then ⟨"APP2", true, true⟩
  else if segment_marker = [0xff, 0xe3] then ⟨"APP3", true, true⟩
  else if segment_marker = [0xff, 0xe4] then ⟨"APP4", true, true⟩
  else if segment_marker = [0xff, 0xe5] then ⟨"APP5", true, true⟩
  else if segment_marker = [0xff, 0xe6] then ⟨"APP6", true, true⟩
  else if segment_marker = [0xff, 0xe7] then ⟨"APP7", true, true⟩
  else if segment_marker = [0xff, 0xe8] then ⟨"APP8", true, true⟩
  else if segment_marker = [0xff, 0xe9] then ⟨"APP9", true, true⟩
  else if segment_marker = [0xff, 0xea] then ⟨"APP10", true, true⟩
  else if segment_marker = [0xff, 0xeb] then ⟨"APP11", true, true⟩
  else if segment_marker = [0xff, 0xec] then ⟨"APP12", true, true⟩
  else if segment_marker = [0xff, 0xed] then ⟨"APP13", true, true⟩
  else if segment_marker = [0xff, 0xee] then ⟨"APP14", true, true⟩
  else if segment_marker = [0xff, 0xef] then ⟨"APP15", true, true⟩
  else if segment_marker = [0xff, 0xfe] then ⟨"COM", true, false⟩
  else if segment_marker = [0xff, 0xc4] then ⟨"DHT", true, false⟩
  else if segment_marker = [0xff, 0xdb] then ⟨"DQT", true, false⟩
  else if segment_marker = [0xff, 0xdd] then ⟨"DRI", true, false⟩
  else if segment_marker = [0xff, 0xd9] then ⟨"EOI", false, false⟩
  else if segment_marker = [0xff, 0xd0] then ⟨"RST0", false, false⟩
  else if segment_marker = [0xff, 0xd1] then ⟨"RST1", false, false⟩
  else if segment_marker = [0xff, 0xd2] then ⟨"RST2", false, false⟩
  else if segment_marker = [0xff, 0xd3] then ⟨"RST3", false, false⟩
  else if segment_marker = [0xff, 0xd4] then ⟨"RST4", false, false⟩
  else if segment_marker = [0xff, 0xd5] then ⟨"RST5", false, false⟩
  else if segment_marker = [0xff, 0xd6] then ⟨"RST6", false, false⟩
  else if segment_marker = [0xff, 0xd7] then ⟨"RST7", false, false⟩
  else if segment_marker = [0xff, 0xc0] then ⟨"SOF0", true, false⟩
  else if segment_marker = [0xff, 0xc2] then ⟨"SOF2", true, false⟩
  else if segment_marker = [0xff, 0xd8] then ⟨"SOI", false, false⟩
  else if segment_marker = [0xff, 0xda] then ⟨"SOS", true, false⟩
  else ⟨String.mk ((segment_marker.map hexByte).flatten) ++ "?", false, false⟩

/-- The 6-byte APP1-Exif identifier `b'Exif\x00\x00'`. -/
def sigExif : List Nat := [0x45, 0x78, 0x69, 0x66, 0x00, 0x00]

/-- The 29-byte APP1-XMP identifier, `b'http://ns.adobe.com/xap/1.0/\x00'`. -/
def sigXap : List Nat :=
  [0x68, 0x74, 0x74, 0x70, 0x3a, 0x2f, 0x2f, 0x6e, 0x73, 0x2e,
   0x61, 0x64, 0x6f, 0x62, 0x65, 0x2e, 0x63, 0x6f, 0x6d, 0x2f,
   0x78, 0x61, 0x70, 0x2f, 0x31, 0x2e, 0x30, 0x2f, 0x00]

/-- The 35-byte APP1-XMP-Extended identifier,
`b'http://ns.adobe.com/xmp/extension/\x00'`. -/
def sigXmpExt : List Nat :=
  [0x68, 0x74, 0x74, 0x70, 0x3a, 0x2f, 0x2f, 0x6e, 0x73, 0x2e,
   0x61, 0x64, 0x6f, 0x62, 0x65, 0x2e, 0x63, 0x6f, 0x6d, 0x2f,
   0x78, 0x6d, 0x70, 0x2f, 0x65, 0x78, 0x74, 0x65, 0x6e, 0x73,
   0x69, 0x6f, 0x6e, 0x2f, 0x00]

/-- The APP1 disambiguation of `segment_map` (exiferino.py lines
368-380): a byte-exact comparison of prefixes of the 35-byte identifier
probe (`id_str[:6]`, `id_str[:29]`, `id_str[:35]`). -/
def app1_variant (id_str : List Nat) : String :=
  if id_str.take 6 = sigExif then "APP1-Exif"
  else if id_str.take 29 = sigXap then "APP1-XMP"
  else if id_str.take 35 = sigXmpExt then "APP1-XMPext"
  else "APP1-unknown"

/-- The markers `segment_map` treats as having no payload (exiferino.py
lines 390-392): the next marker begins right after these 2 bytes. -/
def noPayloadMarkers : List (List Nat) :=
  [[0xff, 0x01], [0xff, 0xd0], [0xff, 0xd1], [0xff, 0xd2],
   [0xff, 0xd3], [0xff, 0xd4], [0xff, 0xd5], [0xff, 0xd6],
   [0xff, 0xd7], [0xff, 0xd8], [0xff, 0xd9]]

/-- The `while True` scanning loop of `segment_map` (exiferino.py lines
361-402), with an explicit fuel bound (the source has none).  At each
step: read a 2-byte marker (a short read ends the scan — "file parsing
error"); classify it; for APP1, probe 35 identifier bytes after the
2-byte size field without consuming the position; record the segment as
`(kind-tag, offset of its marker)`; stop after recording an EOI or SOS
segment; otherwise skip the payload using the 2-byte big-endian data
size (which counts itself but not the marker), unless the marker is a
no-payload marker.  `pos` mirrors `filehandle.tell()`: within the else
branch of each short-read guard the read returned exactly 2 bytes, so
the position advances by 2 (`tell() - 2` is then `pos`). -/
def segment_map_loop (file : List Nat) : Nat → Nat → List (String × Nat)
  | 0, _ => []
  | fuel + 1, pos =>
    let seg_mark := readBytes file pos 2
    if seg_mark.length < 2 then []
    else
      let p1 := pos + 2
      let seg_id := (seginfo seg_mark).name
      let entry :=
        if seg_id = "APP1" then (app1_variant (readBytes file (p1 + 2) 35), pos)
        else (seg_id, pos)
      if seg_id = "EOI" ∨ seg_id = "SOS" then [entry]
      else if seg_mark ∈ noPayloadMarkers then entry :: segment_map_loop file fuel p1
      else
        let dsbytes := readBytes file p1 2
        if dsbytes.length < 2 then [entry]
        else
          let datasize := unpackU16 ByteOrder.be dsbytes
          entry :: segment_map_loop file fuel (p1 + 2 + datasize - 2)

/-- Source `segment_map` (exiferino.py lines 343-404): seek to offset 2 (the
first segment starts right after the SOI marker, which is itself never
recorded) and scan.  `fuel` bounds the number of loop iterations. -/
def segment_map (file : List Nat) (fuel : Nat) : List (String × Nat) :=
  segment_map_loop file fuel 2

/-- The minimal synthetic JPEG of the spec: SOI, an APP0 segment whose
payload is given (for the claim, a valid JFIF header), SOS, then EOI. -/
def minimalJpeg (payload : List Nat) : List Nat :=
  0xff :: 0xd8 :: 0xff :: 0xe0
    :: ((payload.length + 2) / 256) :: ((payload.length + 2) % 256)
    :: (payload ++ [0xff, 0xda, 0xff, 0xd9])

/-- A concrete valid 14-byte JFIF APP0 payload: `b'JFIF\x00'`, version
1.2, density units 0, X/Y density 1, no thumbnail. -/
def jfifPayload : List Nat :=
  [0x4a, 0x46, 0x49, 0x46, 0x00, 1, 2, 0, 0, 1, 0, 1, 0, 0]

/-- A concrete file whose first segment is an APP1 carrying the Exif
identifier: SOI, then the APP1 marker, a size field, the 6-byte Exif
signature and filler bytes. -/
def app1DemoFile : List Nat :=
  [0xff, 0xd8, 0xff, 0xe1, 0x00, 0x29] ++ sigExif ++ List.replicate 35 0

/-- A value tuple of the metadata dictionary,
`(tagdata, tagno, datatype, numvals)`;  the source stores heterogeneous
Python values in these positions, hence four `Py` components. -/
def MetaVal := Py × Py × Py × Py
deriving DecidableEq

/-- The metadata dictionary built by `readmeta`, modelled as an
insertion-ordered association list with Python-dict update semantics. -/
def Meta := List (String × MetaVal)
deriving DecidableEq

/-- Python `meta_dict[key] = value`: overwrite in place when the key exists,
append otherwise (Python dict assignment). -/
def dictSet : List (String × MetaVal) → String → MetaVal → List (String × MetaVal)
  | [], k, v => [(k, v)]
  | (k', v') :: rest, k, v =>
    if k' = k then (k, v) :: rest else (k', v') :: dictSet rest k v

/-- Source `exiftag` (jpegdata.py lines 15-24): convert a tag number to its
description via the external tag-name table (`tagnames_exif23.json`,
supplied as static data and threaded here as a parameter); a lookup miss
yields the numeric string suffixed with `?`.  The tag number arrives
from `decode_bytes`, hence `Option Nat` (`str(None)` is `"None"`). -/
def exiftag (table : List (String × String)) (tagno : Option Nat) : String :=
  let tagno_str := pyStrOfOpt tagno
  match table.lookup tagno_str with
  | some name => name
  | Option.none => tagno_str ++ "?"

/-- Python `x if o is an int else Py.none`: how decoded values are stored
in metadata tuples. -/
def pyOfOpt : Option Nat → Py
  | some n => Py.int n
  | Option.none => Py.none

/-- One iteration of the entry loop of `read_ifd` (exiferino.py lines
266-282): read tag id (2 bytes), data type (2 bytes), value count
(4 bytes) and the fixed 4-byte value field; a tag in
`{34665, 34853, 40965}` appends the decoded 4-byte field to the sub-IFD
queue and writes nothing to the dictionary, any other tag writes a
metadata record under `"Exif|" ++ tagname`.  The state is
`(meta_dict, subifd_queue)`; the result also carries the file position
after the entry (each read advances by the bytes actually returned). -/
def read_entry (table : List (String × String)) (file : List Nat) (bo : ByteOrder)
    (pos : Nat) (st : List (String × MetaVal) × List (Option Nat)) :
    (List (String × MetaVal) × List (Option Nat)) × Nat :=
  let tagB := readBytes file pos 2
  let p1 := pos + tagB.length
  let exif_tag_no := ExifDecoder.decode_bytes bo tagB
  let dtB := readBytes file p1 2
  let p2 := p1 + dtB.length
  let data_type := ExifDecoder.decode_bytes bo dtB
  let cntB := readBytes file p2 4
  let p3 := p2 + cntB.length
  let number_of_values := ExifDecoder.decode_bytes bo cntB
  let tagdata := readBytes file p3 4
  let p4 := p3 + tagdata.length
  if exif_tag_no = some 34665 ∨ exif_tag_no = some 34853 ∨ exif_tag_no = some 40965 then
    ((st.1, st.2 ++ [ExifDecoder.decode_bytes bo tagdata]), p4)
  else
    ((dictSet st.1 ("Exif|" ++ exiftag table exif_tag_no)
        (exifdata_tostring tagdata data_type bo,
         Py.str (pyStrOfOpt exif_tag_no), pyOfOpt data_type, pyOfOpt number_of_values),
      st.2), p4)

/-- The `for _ in range(directory_entries)` loop of `read_ifd`. -/
def read_entries (table : List (String × String)) (file : List Nat) (bo : ByteOrder) :
    Nat → Nat → (List (String × MetaVal) × List (Option Nat)) →
    (List (String × MetaVal) × List (Option Nat)) × Nat
  | 0, pos, st => (st, pos)
  | n + 1, pos, st =>
    let r := read_entry table file bo pos st
    read_entries table file bo n r.2 r.1

/-- Source `read_ifd` (exiferino.py lines 246-285): read the 2-byte entry
count, process the entries, then read and decode the trailing 4-byte
offset of the next IFD in the chain.  The result is the updated
`(meta_dict, subifd_queue)` and the decoded next offset.  An outer
`none` models the `TypeError` Python raises from
`range(directory_entries)` when the count bytes had an invalid length
(`decode_bytes` returned `None`); an inner `none` next offset is the
`None` a caller would crash on in `while offset_ifd > 0`. -/
def read_ifd (table : List (String × String)) (file : List Nat) (bo : ByteOrder)
    (pos : Nat) (meta : List (String × MetaVal)) (queue : List (Option Nat)) :
    Option ((List (String × MetaVal) × List (Option Nat)) × Option Nat) :=
  let cntB := readBytes file pos 2
  match ExifDecoder.decode_bytes bo cntB with
  | Option.none => Option.none
  | some directory_entries =>
    let r := read_entries table file bo directory_entries (pos + cntB.length) (meta, queue)
    some (r.1, ExifDecoder.decode_bytes bo (readBytes file r.2 4))

/-- The `while offset_ifd > 0` chain loop of `read_app1_exif`
(exiferino.py lines 137-140 and 145-148): seek to
`tiff_header + offset`, call `read_ifd`, continue with the returned
offset until it is 0.  Instrumented with the ordered list of (relative)
IFD offsets visited, so ordering properties can be stated.  `none`
models a crash (`read_ifd` failure, comparison of `None` with 0) or fuel
exhaustion (the source loop is unbounded). -/
def ifd_chain (table : List (String × String)) (file : List Nat) (bo : ByteOrder)
    (base : Nat) :
    Nat → Option Nat → (List (String × MetaVal) × List (Option Nat)) →
    Option ((List (String × MetaVal) × List (Option Nat)) × List Nat)
  | 0, _, _ => Option.none
  | fuel + 1, offo, st =>
    match offo with
    | Option.none => Option.none
    | some off =>
      if off > 0 then
        match read_ifd table file bo (base + off) st.1 st.2 with
        | Option.none => Option.none
        | some (st', nxt) =>
          (ifd_chain table file bo base fuel nxt st').map (fun r => (r.1, off :: r.2))
      else some (st, [])

/-- The `while len(subifd_queue) > 0` drain loop of `read_app1_exif`
(exiferino.py lines 143-148): pop the front offset and follow its whole
chain (which may append further offsets to the queue) before popping the
next.  `qfuel` bounds the number of dequeues, `cfuel` each chain. -/
def subifd_drain (table : List (String × String)) (file : List Nat) (bo : ByteOrder)
    (base cfuel : Nat) :
    Nat → (List (String × MetaVal) × List (Option Nat)) →
    Option ((List (String × MetaVal) × List (Option Nat)) × List Nat)
  | 0, st =>
    match st.2 with
    | [] => some (st, [])
    | _ :: _ => Option.none
  | qfuel + 1, st =>
    match st.2 with
    | [] => some (st, [])
    | offo :: pending =>
      match ifd_chain table file bo base cfuel offo (st.1, pending) with
      | Option.none => Option.none
      | some (st', tr) =>
        (subifd_drain table file bo base cfuel qfuel st').map (fun r => (r.1, tr ++ r.2))

/-- The IFD-walking core of `read_app1_exif` (exiferino.py lines
126-148), after the APP1 marker, Exif header and TIFF header have been
verified and produced `(byte order, tiff_header base, offset_ifd0)`:
follow the main chain from IFD0 with an empty sub-IFD queue, then drain
the queue.  Instrumented with the ordered list of IFD offsets
processed. -/
def read_app1_exif_walk (table : List (String × String)) (file : List Nat)
    (bo : ByteOrder) (base ifd0 : Nat) (meta : List (String × MetaVal))
    (cfuel qfuel : Nat) :
    Option ((List (String × MetaVal) × List (Option Nat)) × List Nat) :=
  match ifd_chain table file bo base cfuel (some ifd0) (meta, []) with
  | Option.none => Option.none
  | some (st, tr) =>
    (subifd_drain table file bo base cfuel qfuel st).map (fun r => (r.1, tr ++ r.2))

/-- Modelled from the spec's wording for C3: one directory chain,
followed from a starting offset to its end (next offset 0), together
with the sub-IFD offsets it discovers, computed independently of any
surrounding queue state (each visited IFD is read with an empty
dictionary and queue, and contributes the offsets it alone appends). -/
def chain_spec (table : List (String × String)) (file : List Nat) (bo : ByteOrder)
    (base : Nat) : Nat → Option Nat → Option (List Nat × List (Option Nat))
  | 0, _ => Option.none
  | fuel + 1, offo =>
    match offo with
    | Option.none => Option.none
    | some off =>
      if off > 0 then
        match read_ifd table file bo (base + off) [] [] with
        | Option.none => Option.none
        | some (st', nxt) =>
          (chain_spec table file bo base fuel nxt).map
            (fun r => (off :: r.1, st'.2 ++ r.2))
      else some ([], [])

/-- Modelled from the spec's wording for C3: FIFO queue drain — the
front offset's chain is followed to its end before the next dequeue, and
offsets discovered meanwhile are enqueued at the back. -/
def drain_spec (table : List (String × String)) (file : List Nat) (bo : ByteOrder)
    (base cfuel : Nat) : Nat → List (Option Nat) → Option (List Nat)
  | 0, [] => some []
  | 0, _ :: _ => Option.none
  | _ + 1, [] => some []
  | qfuel + 1, offo :: pending =>
    match chain_spec table file bo base cfuel offo with
    | Option.none => Option.none
    | some (tr, found) =>
      (drain_spec table file bo base cfuel qfuel (pending ++ found)).map (tr ++ ·)

/-- Modelled from the spec's wording for C3: the overall IFD processing
order of an APP1-Exif segment — the whole main chain from IFD0 first,
then the FIFO drain of the sub-IFD offsets the main chain discovered. -/
def ifd_order_spec (table : List (String × String)) (file : List Nat) (bo : ByteOrder)
    (base ifd0 cfuel qfuel : Nat) : Option (List Nat) :=
  match chain_spec table file bo base cfuel (some ifd0) with
  | Option.none => Option.none
  | some (tr, found) =>
    (drain_spec table file bo base cfuel qfuel found).map (tr ++ ·)

/-- The concrete synthetic IFD of the spec's C2 test: entry count 1, a
single entry with tag 34665 (`0x8769`, little-endian bytes `69 87`),
data type 4, count 1, value field `0x00000128` (offset 296), and a
trailing next-IFD offset of 0. -/
def ifdDemoFile : List Nat :=
  [1, 0, 0x69, 0x87, 4, 0, 1, 0, 0, 0, 0x28, 0x01, 0, 0, 0, 0, 0, 0]

/-- Proof helper: the dictionary update a single directory entry at
`pos` performs, isolated from the queue (derived from `read_entry`). -/
def entry_meta_upd (table : List (String × String)) (file : List Nat) (bo : ByteOrder)
    (pos : Nat) (m : List (String × MetaVal)) : List (String × MetaVal) :=
  (read_entry table file bo pos (m, [])).1.1

/-- Proof helper: the sub-IFD offsets a single directory entry at `pos`
appends to the queue (derived from `read_entry`). -/
def entry_qdelta (table : List (String × String)) (file : List Nat) (bo : ByteOrder)
    (pos : Nat) : List (Option Nat) :=
  (read_entry table file bo pos ([], [])).1.2

/-- Proof helper: the file position after a single directory entry at
`pos` (derived from `read_entry`). -/
def entry_pos (table : List (String × String)) (file : List Nat) (bo : ByteOrder)
    (pos : Nat) : Nat :=
  (read_entry table file bo pos ([], [])).2

/-- Proof helper: the queue contribution of `n` consecutive entries. -/
def entries_qdelta (table : List (String × String)) (file : List Nat) (bo : ByteOrder) :
    Nat → Nat → List (Option Nat)
  | 0, _ => []
  | n + 1, pos =>
    entry_qdelta table file bo pos
      ++ entries_qdelta table file bo n (entry_pos table file bo pos)

/-- Proof helper: the file position after `n` consecutive entries. -/
def entries_pos (table : List (String × String)) (file : List Nat) (bo : ByteOrder) :
    Nat → Nat → Nat
  | 0, pos => pos
  | n + 1, pos => entries_pos table file bo n (entry_pos table file bo pos)

/-- Proof helper: the dictionary update of `n` consecutive entries. -/
def entries_meta_upd (table : List (String × String)) (file : List Nat) (bo : ByteOrder) :
    Nat → Nat → List (String × MetaVal) → List (String × MetaVal)
  | 0, _, m => m
  | n + 1, pos, m =>
    entries_meta_upd table file bo n (entry_pos table file bo pos)
      (entry_meta_upd table file bo pos m)

/-- Proof helper: the queue contribution and next-IFD offset of one
whole IFD at `pos`, isolated from dictionary and queue state. -/
def ifd_result (table : List (String × String)) (file : List Nat) (bo : ByteOrder)
    (pos : Nat) : Option (List (Option Nat) × Option Nat) :=
  match ExifDecoder.decode_bytes bo (readBytes file pos 2) with
  | Option.none => Option.none
  | some n =>
    some (entries_qdelta table file bo n (pos + (readBytes file pos 2).length),
      ExifDecoder.decode_bytes bo
        (readBytes file
          (entries_pos table file bo n (pos + (readBytes file pos 2).length)) 4))

/-- Proof helper: the dictionary update of one whole IFD at `pos`. -/
def ifd_meta (table : List (String × String)) (file : List Nat) (bo : ByteOrder)
    (pos : Nat) (m : List (String × MetaVal)) : List (String × MetaVal) :=
  match ExifDecoder.decode_bytes bo (readBytes file pos 2) with
  | Option.none => m
  | some n => entries_meta_upd table file bo n (pos + (readBytes file pos 2).length) m

/-- An XML element as produced by `xml.etree.ElementTree.fromstring`
followed by `.iter()` (an external library, the program's collaborator):
its qualified tag (ElementTree renders namespaces as
`\x7bnamespace\x7dlocalName`) and its text, which is a string or Python
`None` (`None` when nothing stands between the opening tag and the first
child element). -/
structure XmlElem where
  tag : String
  text : Option String
deriving DecidableEq, Repr

/-- Python `str(child.text)`: the text itself, or `"None"` for `None`. -/
def pyStrText : Option String → String
  | some s => s
  | Option.none => "None"

/-- Python `str.strip()` with no argument: remove leading and trailing
whitespace (faithful for the ASCII whitespace of the texts involved). -/
def pyStrip (s : String) : String :=
  String.mk (((s.data.dropWhile Char.isWhitespace).reverse.dropWhile
    Char.isWhitespace).reverse)

/-- How `child.text` is stored in the metadata tuple. -/
def pyOfText : Option String → Py
  | some s => Py.str s
  | Option.none => Py.none

/-- Source `xmpns_tagtype` (exiferino.py lines 506-528): the fixed table from
XMP namespace URI to category label; unrecognized namespaces pass
through unchanged. -/
def xmpns_tagtype (xmp_namespace : String) : String :=
  if xmp_namespace = "http://www.w3.org/1999/02/22-rdf-syntax-ns#" then "XMP-RDF"
  else if xmp_namespace = "http://ns.adobe.com/tiff/1.0/" then "XMP-tiff"
  else if xmp_namespace = "http://ns.adobe.com/xap/1.0/" then "XMP-xap"
  else if xmp_namespace = "http://ns.adobe.com/exif/1.0/" then "XMP-exif"
  else if xmp_namespace = "http://ns.adobe.com/xap/1.0/mm/" then "XMP-xap"
  else if xmp_namespace = "http://purl.org/dc/elements/1.1/" then "XMP-dcore"
  else if xmp_namespace = "http://ns.adobe.com/photoshop/1.0/" then "Photoshop"
  else xmp_namespace

/-- The greedy group split of Python
`re.search(r'\x7b(?P<ns>.+)\x7d(?P<tag>.+)', ...)` once a `\x7b` has
been consumed: the index of the last closing brace (`\x7d`, code 125)
that leaves a non-empty namespace group before it (`k ≥ 1`) containing
no newline (regex `.` does not match a newline, code 10) and at least
one non-newline character after it. -/
def braceSplitIdx (r : List Char) : Option Nat :=
  ((List.range r.length).filter (fun k =>
      (r.get? k == some (Char.ofNat 125)) && decide (1 ≤ k)
      && !((r.take k).contains (Char.ofNat 10))
      && (match r.get? (k + 1) with
          | some c => c != Char.ofNat 10
          | Option.none => false))).getLast?

/-- Python `re.search(r'\x7b(?P<ns>.+)\x7d(?P<tag>.+)', s)` (exiferino.py line
193): the leftmost position opening with `\x7b` (code 123) from which
the groups match; the `ns` group is greedy, the `tag` group then takes
every following character up to a newline or the end. -/
def reSearchNsTag : List Char → Option (String × String)
  | [] => Option.none
  | c :: rest =>
    if c = Char.ofNat 123 then
      match braceSplitIdx rest with
      | some k =>
        some (String.mk (rest.take k),
          String.mk ((rest.drop (k + 1)).takeWhile (fun d => d != Char.ofNat 10)))
      | Option.none => reSearchNsTag rest
    else reSearchNsTag rest

/-- The body of the `for child in fromstring(...).iter()` loop of
`read_app1_xmp` (exiferino.py lines 187-197): skip the element when
`str(child.text).strip()` is empty (note `str(None)` is `"None"`, which
is not empty); otherwise split the qualified tag and, when it matches,
store `(child.text, '', '', 1)` under
`xmpns_tagtype(ns) + '|' + tagname`. -/
def xmp_child_record (meta : List (String × MetaVal)) (child : XmlElem) :
    List (String × MetaVal) :=
  if pyStrip (pyStrText child.text) = "" then meta
  else
    match reSearchNsTag child.tag.data with
    | some (xmp_ns, tagname) =>
      dictSet meta (xmpns_tagtype xmp_ns ++ "|" ++ tagname)
        (pyOfText child.text, Py.str "", Py.str "", Py.int 1)
    | Option.none => meta

/-- The whole element loop of `read_app1_xmp` over the parsed packet. -/
def xmp_records (elems : List XmlElem) (meta : List (String × MetaVal)) :
    List (String × MetaVal) :=
  elems.foldl xmp_child_record meta

/-- Whether the 19 characters at index `i` match the Python regex
`<\?xpacket end=[\x27"]w[\x27"]\?>` compiled with `re.I` (exiferino.py
line 176): letters match case-insensitively, each quote is
independently a single or double quote. -/
def xpacketEndAt (s : List Char) (i : Nat) : Bool :=
  let quote := fun (c : Char) => c == Char.ofNat 39 || c == Char.ofNat 34
  let ci := fun (c d : Char) => c.toLower == d
  match (s.drop i).take 19 with
  | [a, b, x1, x2, x3, x4, x5, x6, x7, sp, e1, e2, e3, eq, q1, w, q2, qm, gt] =>
    a == Char.ofNat 60 && b == Char.ofNat 63
      && ci x1 (Char.ofNat 120) && ci x2 (Char.ofNat 112) && ci x3 (Char.ofNat 97)
      && ci x4 (Char.ofNat 99) && ci x5 (Char.ofNat 107) && ci x6 (Char.ofNat 101)
      && ci x7 (Char.ofNat 116) && sp == Char.ofNat 32
      && ci e1 (Char.ofNat 101) && ci e2 (Char.ofNat 110) && ci e3 (Char.ofNat 100)
      && eq == Char.ofNat 61 && quote q1 && ci w (Char.ofNat 119) && quote q2
      && qm == Char.ofNat 63 && gt == Char.ofNat 62
  | _ => false

/-- The index of the first match of the closing `xpacket` processing
instruction in the decoded APP1 payload (`re.search` is leftmost-first;
the pattern has a fixed length, so no backtracking is involved). -/
def searchXpacketEnd (s : List Char) : Option Nat :=
  (List.range s.length).find? (fun i => xpacketEndAt s i)

/-- Source `read_app1_xmp` (exiferino.py lines 151-197) from the point where
the APP1 payload has been read and decoded (the marker/size/identifier
framing in lines 161-172 only positions the stream; UTF-8 decoding is
the identity on the ASCII payloads modelled here, so the payload is its
character list).  The external XML parser (`fromstring(...).iter()`) is
the `parse` parameter.  When no closing `xpacket` tag is found, the
function prints an error and returns with no records added — the `true`
flag records that the diagnostic was raised.  Otherwise the packet is
cut after the closing tag (the source adds 2 to the match start and
keeps `len('<?xpacket end="w"?>')` = 19 more characters; its
`closing_tag_pos == 0` branch is unreachable but kept) and its parsed
elements are folded into the dictionary. -/
def read_app1_xmp (app1_payload : List Char)
    (parse : List Char → List XmlElem)
    (meta : List (String × MetaVal)) : List (String × MetaVal) × Bool :=
  match searchXpacketEnd app1_payload with
  | Option.none => (meta, true)
  | some idx =>
    let closing_tag_pos := idx + 2
    let xmp_packet :=
      if closing_tag_pos = 0 then [] else app1_payload.take (closing_tag_pos + 19)
    (xmp_records (parse xmp_packet) meta, false)

/-- The marker types `verify_marker` knows (exiferino.py lines 456-457). -/
def knownMarkerTypes : List String :=
  ["SOI", "APP0", "APP1", "APP2", "APP3", "APP12", "APP13", "APP14"]

/-- The 2-byte marker each supported type expects (the inline constants
of exiferino.py lines 462-478). -/
def expectedMarker (markertype : String) : List Nat :=
  if markertype = "SOI" then [0xff, 0xd8]
  else if markertype = "APP0" then [0xff, 0xe0]
  else if markertype = "APP1" then [0xff, 0xe1]
  else if markertype = "APP2" then [0xff, 0xe2]
  else if markertype = "APP3" then [0xff, 0xe3]
  else if markertype = "APP12" then [0xff, 0xec]
  else if markertype = "APP13" then [0xff, 0xed]
  else if markertype = "APP14" then [0xff, 0xee]
  else []

/-- Outcome of `verify_marker`: the stream position afterwards, whether
`sys.exit()` terminated the process, and whether a message was printed. -/
structure MarkerCheck where
  newpos : Nat
  exited : Bool
  printed : Bool
deriving DecidableEq, Repr

/-- Source `verify_marker` (exiferino.py lines 443-478): read 2 bytes, exit on
an unknown expected type or on an SOI mismatch; for every other
supported type a mismatch only prints an error and the function returns
normally. -/
def verify_marker (file : List Nat) (pos : Nat) (markertype : String) : MarkerCheck :=
  let marker := readBytes file pos 2
  let p := pos + marker.length
  if markertype ∉ knownMarkerTypes then ⟨p, true, true⟩
  else if markertype = "SOI" ∧ marker ≠ [0xff, 0xd8] then ⟨p, true, true⟩
  else if markertype = "APP0" ∧ marker ≠ [0xff, 0xe0] then ⟨p, false, true⟩
  else if markertype = "APP1" ∧ marker ≠ [0xff, 0xe1] then ⟨p, false, true⟩
  else if markertype = "APP2" ∧ marker ≠ [0xff, 0xe2] then ⟨p, false, true⟩
  else if markertype = "APP3" ∧ marker ≠ [0xff, 0xe3] then ⟨p, false, true⟩
  else if markertype = "APP12" ∧ marker ≠ [0xff, 0xec] then ⟨p, false, true⟩
  else if markertype = "APP13" ∧ marker ≠ [0xff, 0xed] then ⟨p, false, true⟩
  else if markertype = "APP14" ∧ marker ≠ [0xff, 0xee] then ⟨p, false, true⟩
  else ⟨p, false, false⟩

/-! ### Theorems -/

theorem readBytes_length (file : List Nat) (pos n : Nat)
    (h : pos + n ≤ file.length) : (readBytes file pos n).length = n := by
  simp only [readBytes, List.length_take, List.length_drop]
  omega

/-- C4: `decode_bytes` maps the empty string to 0; a 2-byte string to
the unsigned 16-bit value under the active byte order and a 4-byte
string to the unsigned 32-bit value (shown here with the concrete
little- and big-endian place values); every other length yields a detected
error (`none`, the source's printed error followed by a `None` return),
never a silently wrong unsigned value. -/
theorem decode_bytes_contract (bo : ByteOrder) (bs : List Nat) :
    (bs.length = 0 → ExifDecoder.decode_bytes bo bs = some 0)
    ∧ (∀ x y : Nat, ExifDecoder.decode_bytes ByteOrder.le [x, y] = some (x + 256 * y))
    ∧ (∀ x y : Nat, ExifDecoder.decode_bytes ByteOrder.be [x, y] = some (256 * x + y))
    ∧ (∀ x y z w : Nat, ExifDecoder.decode_bytes ByteOrder.le [x, y, z, w]
        = some (x + 256 * y + 65536 * z + 16777216 * w))
    ∧ (∀ x y z w : Nat, ExifDecoder.decode_bytes ByteOrder.be [x, y, z, w]
        = some (16777216 * x + 65536 * y + 256 * z + w))
    ∧ (bs.length ≠ 0 → bs.length ≠ 2 → bs.length ≠ 4 →
        ExifDecoder.decode_bytes bo bs = none) := by
  refine ⟨fun h => ?_, fun x y => rfl, fun x y => rfl, fun x y z w => rfl,
    fun x y z w => rfl, fun h0 h2 h4 => ?_⟩
  · simp [ExifDecoder.decode_bytes, h]
  · simp [ExifDecoder.decode_bytes, h0, h2, h4]

/-- C4 witness: the contract evaluated at concrete inputs — the empty
string decodes to 0 and a 3-byte string is rejected. -/
theorem decode_bytes_contract_witness :
    ExifDecoder.decode_bytes ByteOrder.le [] = some 0
    ∧ ExifDecoder.decode_bytes ByteOrder.le [1, 2, 3] = none :=
  ⟨(decode_bytes_contract ByteOrder.le []).1 rfl,
   (decode_bytes_contract ByteOrder.le [1, 2, 3]).2.2.2.2.2
     (by decide) (by decide) (by decide)⟩

/-- C5: the source renders datatypes 8 (SSHORT) and 9 (SLONG) through
the *unsigned* decoder.  On bytes `FF FF` (little-endian) the rendered
string is "65535" although the signed 16-bit two's-complement value the
claim (and the source's own comments) specify is -1; likewise
`FF FF FF FF` renders as "4294967295" rather than the signed -1. -/
theorem exifdata_tostring_sshort_slong_unsigned :
    exifdata_tostring [0xff, 0xff] (some 8) ByteOrder.le = Py.str "65535"
    ∧ sshortValue ByteOrder.le [0xff, 0xff] = -1
    ∧ exifdata_tostring [0xff, 0xff, 0xff, 0xff] (some 9) ByteOrder.le
        = Py.str "4294967295"
    ∧ slongValue ByteOrder.le [0xff, 0xff, 0xff, 0xff] = -1 := by
  refine ⟨rfl, by decide, rfl, by decide⟩

/-- C9: `set_byteorder` is total — exactly `b'II'` selects little-endian
decoding and every other byte string (including `b'MM'` and invalid
markers) selects big-endian; an invalid marker only raises the warning
flag; and any decoder initialised from a non-`b'II'` setting decodes
2-byte strings big-endian. -/
theorem set_byteorder_total (b : List Nat) :
    ((ExifDecoder.set_byteorder b).byteorder
      = if b = [0x49, 0x49] then ByteOrder.le else ByteOrder.be)
    ∧ ((ExifDecoder.set_byteorder b).warned = true
        ↔ (b ≠ [0x49, 0x49] ∧ b ≠ [0x4d, 0x4d]))
    ∧ (∀ x y : Nat, b ≠ [0x49, 0x49] →
        ExifDecoder.decode_bytes (ExifDecoder.set_byteorder b).byteorder [x, y]
          = some (256 * x + y)) := by
  refine ⟨rfl, ?_, fun x y h => ?_⟩
  · simp only [ExifDecoder.set_byteorder]
    by_cases h1 : b = [0x49, 0x49] <;> by_cases h2 : b = [0x4d, 0x4d] <;>
      simp [h1, h2]
  · simp only [ExifDecoder.set_byteorder, if_neg h]
    rfl

/-- C9 witness: the invalid marker `b'\x00\x01'` produces a warning yet a
working big-endian decoder. -/
theorem set_byteorder_total_witness :
    (ExifDecoder.set_byteorder [0, 1]).warned = true
    ∧ ExifDecoder.decode_bytes (ExifDecoder.set_byteorder [0, 1]).byteorder [1, 2]
        = some 258 :=
  ⟨(set_byteorder_total [0, 1]).2.1.mpr ⟨by decide, by decide⟩,
   (set_byteorder_total [0, 1]).2.2 1 2 (by decide)⟩

theorem segment_map_loop_step_skip (file : List Nat) (fuel pos : Nat)
    (mark : List Nat) (hmark : readBytes file pos 2 = mark)
    (hlen : mark.length = 2)
    (hnotapp1 : (seginfo mark).name ≠ "APP1")
    (hnoteoi : (seginfo mark).name ≠ "EOI")
    (hnotsos : (seginfo mark).name ≠ "SOS")
    (hnp : mark ∉ noPayloadMarkers)
    (ds : List Nat) (hds : readBytes file (pos + 2) 2 = ds) (hds2 : ds.length = 2) :
    segment_map_loop file (fuel + 1) pos
      = ((seginfo mark).name, pos)
          :: segment_map_loop file fuel (pos + 2 + 2 + unpackU16 ByteOrder.be ds - 2) := by
  simp only [segment_map_loop, hmark, hds, hlen, hds2]
  rw [if_neg (by omega), if_neg hnotapp1, if_neg (by push_neg; exact ⟨hnoteoi, hnotsos⟩),
    if_neg hnp, if_neg (by omega)]

theorem segment_map_loop_step_stop (file : List Nat) (fuel pos : Nat)
    (mark : List Nat) (hmark : readBytes file pos 2 = mark)
    (hlen : mark.length = 2)
    (hnotapp1 : (seginfo mark).name ≠ "APP1")
    (hstop : (seginfo mark).name = "EOI" ∨ (seginfo mark).name = "SOS") :
    segment_map_loop file (fuel + 1) pos = [((seginfo mark).name, pos)] := by
  simp only [segment_map_loop, hmark, hlen]
  rw [if_neg (by omega), if_neg hnotapp1, if_pos hstop]

/-- C1 counterexample: on the concrete minimal synthetic JPEG (SOI, an
APP0 segment with a valid JFIF header, SOS, EOI) the scanner's output
kinds are not `[SOI, APP0, SOS]` — `segment_map` starts scanning right
after the SOI marker and never records SOI. -/
theorem segment_map_minimal_not_claimed :
    (segment_map (minimalJpeg jfifPayload) 10).map Prod.fst ≠ ["SOI", "APP0", "SOS"] := by
  decide

/-- C1 as amended: for every minimal synthetic JPEG (SOI, one APP0
segment whose payload carries a valid JFIF header, SOS, then EOI) and
any sufficient fuel, `segment_map` returns exactly
`[(APP0, 2), (SOS, 6 + payload length)]`: the SOI marker is skipped (the
scan starts right after it and never records it), the segment that
classifies as SOS is itself recorded, and no segment after it — in
particular the EOI — is recorded. -/
theorem segment_map_minimal (payload : List Nat)
    (hjfif : payload.take 5 = [0x4a, 0x46, 0x49, 0x46, 0x00])
    (hsize : payload.length + 2 ≤ 65535) :
    ∀ k : Nat, segment_map (minimalJpeg payload) (k + 2)
      = [("APP0", 2), ("SOS", 6 + payload.length)] := by
  intro k
  have hdrop6 : (minimalJpeg payload).drop 6 = payload ++ [0xff, 0xda, 0xff, 0xd9] := by
    simp [minimalJpeg]
  have h1 : readBytes (minimalJpeg payload) 2 2 = [0xff, 0xe0] := by
    simp [readBytes, minimalJpeg]
  have h2 : readBytes (minimalJpeg payload) 4 2
      = [(payload.length + 2) / 256, (payload.length + 2) % 256] := by
    simp [readBytes, minimalJpeg]
  have h3 : readBytes (minimalJpeg payload) (6 + payload.length) 2 = [0xff, 0xda] := by
    unfold readBytes
    rw [← List.drop_drop, hdrop6, List.drop_left]
    rfl
  have hds : unpackU16 ByteOrder.be
      [(payload.length + 2) / 256, (payload.length + 2) % 256] = payload.length + 2 := by
    show 256 * ((payload.length + 2) / 256) + (payload.length + 2) % 256 = payload.length + 2
    exact Nat.div_add_mod (payload.length + 2) 256
  have hpos : 2 + 2 + 2 + unpackU16 ByteOrder.be
      [(payload.length + 2) / 256, (payload.length + 2) % 256] - 2 = 6 + payload.length := by
    rw [hds]; omega
  unfold segment_map
  rw [segment_map_loop_step_skip (minimalJpeg payload) (k + 1) 2 [0xff, 0xe0] h1
      (by decide) (by decide) (by decide) (by decide) (by decide) _ h2 (by rfl)]
  rw [hpos]
  rw [segment_map_loop_step_stop (minimalJpeg payload) k (6 + payload.length)
      [0xff, 0xda] h3 (by decide) (by decide) (by decide)]
  rfl

/-- C1 witness: the amended statement evaluated on the concrete minimal
JPEG built from the 14-byte JFIF payload. -/
theorem segment_map_minimal_witness :
    segment_map (minimalJpeg jfifPayload) 2 = [("APP0", 2), ("SOS", 20)] := by
  have h := segment_map_minimal jfifPayload (by decide) (by decide) 0
  simpa using h

/-- C6: whenever the scanner reads the APP1 marker `FF E1`, the recorded
segment is `(app1_variant probe, marker offset)` where `probe` is the 35
identifier bytes following the 2-byte size field; and `app1_variant` is
determined exactly by byte-exact prefixes of the probe: the 6-byte
`Exif\x00\x00` signature yields APP1-Exif, the 29-byte Adobe XAP URI
yields APP1-XMP, the 35-byte Adobe XMP-extension URI yields APP1-XMPext,
and anything else yields APP1-unknown. -/
theorem segment_map_app1_probe (file : List Nat) (fuel pos : Nat)
    (h : readBytes file pos 2 = [0xff, 0xe1]) :
    (∃ rest, segment_map_loop file (fuel + 1) pos
        = (app1_variant (readBytes file (pos + 4) 35), pos) :: rest)
    ∧ (∀ probe : List Nat,
        (probe.take 6 = sigExif → app1_variant probe = "APP1-Exif")
        ∧ (probe.take 29 = sigXap → app1_variant probe = "APP1-XMP")
        ∧ (probe.take 35 = sigXmpExt → app1_variant probe = "APP1-XMPext")
        ∧ (probe.take 6 ≠ sigExif → probe.take 29 ≠ sigXap →
            probe.take 35 ≠ sigXmpExt → app1_variant probe = "APP1-unknown")) := by
  constructor
  · simp only [segment_map_loop, h]
    rw [if_neg (show ¬(([0xff, 0xe1] : List Nat).length < 2) by decide)]
    have hsi : (seginfo [0xff, 0xe1]).name = "APP1" := by decide
    simp only [hsi, if_true]
    rw [if_neg (show ¬("APP1" = "EOI" ∨ "APP1" = "SOS") by decide),
      if_neg (show ([0xff, 0xe1] : List Nat) ∉ noPayloadMarkers by decide)]
    rw [show pos + 2 + 2 = pos + 4 from by omega]
    by_cases hlen : (readBytes file (pos + 2) 2).length < 2
    · rw [if_pos hlen]
      exact ⟨[], rfl⟩
    · rw [if_neg hlen]
      exact ⟨_, rfl⟩
  · intro probe
    have t6of29 : probe.take 29 = sigXap → probe.take 6 ≠ sigExif := by
      intro h29 h6
      have := congrArg (List.take 6) h29
      rw [List.take_take] at this
      norm_num at this
      rw [h6] at this
      exact absurd this (by decide)
    have t6of35 : probe.take 35 = sigXmpExt → probe.take 6 ≠ sigExif := by
      intro h35 h6
      have := congrArg (List.take 6) h35
      rw [List.take_take] at this
      norm_num at this
      rw [h6] at this
      exact absurd this (by decide)
    have t29of35 : probe.take 35 = sigXmpExt → probe.take 29 ≠ sigXap := by
      intro h35 h29
      have := congrArg (List.take 29) h35
      rw [List.take_take] at this
      norm_num at this
      rw [h29] at this
      exact absurd this (by decide)
    refine ⟨fun h6 => ?_, fun h29 => ?_, fun h35 => ?_, fun h6 h29 h35 => ?_⟩
    · rw [app1_variant, if_pos h6]
    · rw [app1_variant, if_neg (t6of29 h29), if_pos h29]
    · rw [app1_variant, if_neg (t6of35 h35), if_neg (t29of35 h35), if_pos h35]
    · rw [app1_variant, if_neg h6, if_neg h29, if_neg h35]

/-- C6 witness: on the concrete file whose APP1 probe starts with the
Exif signature, the scanner's first recorded segment is
`("APP1-Exif", 2)`. -/
theorem segment_map_app1_probe_witness :
    ∃ rest, segment_map_loop app1DemoFile 3 2 = ("APP1-Exif", 2) :: rest := by
  obtain ⟨⟨rest, hr⟩, hc⟩ := segment_map_app1_probe app1DemoFile 2 2 (by decide)
  refine ⟨rest, ?_⟩
  rw [hr, (hc (readBytes app1DemoFile 6 35)).1 (by decide)]

theorem read_entry_split (table : List (String × String)) (file : List Nat)
    (bo : ByteOrder) (pos : Nat) (m : List (String × MetaVal)) (q : List (Option Nat)) :
    read_entry table file bo pos (m, q)
      = ((entry_meta_upd table file bo pos m, q ++ entry_qdelta table file bo pos),
         entry_pos table file bo pos) := by
  by_cases h : ExifDecoder.decode_bytes bo (readBytes file pos 2) = some 34665
      ∨ ExifDecoder.decode_bytes bo (readBytes file pos 2) = some 34853
      ∨ ExifDecoder.decode_bytes bo (readBytes file pos 2) = some 40965 <;>
    simp [read_entry, entry_meta_upd, entry_qdelta, entry_pos, h]

theorem read_entries_split (table : List (String × String)) (file : List Nat)
    (bo : ByteOrder) :
    ∀ (n pos : Nat) (m : List (String × MetaVal)) (q : List (Option Nat)),
    read_entries table file bo n pos (m, q)
      = ((entries_meta_upd table file bo n pos m, q ++ entries_qdelta table file bo n pos),
         entries_pos table file bo n pos) := by
  intro n
  induction n with
  | zero => intro pos m q; simp [read_entries, entries_meta_upd, entries_qdelta, entries_pos]
  | succ k ih =>
    intro pos m q
    simp only [read_entries, entries_meta_upd, entries_qdelta, entries_pos]
    rw [read_entry_split]
    rw [ih]
    simp [List.append_assoc]

theorem read_ifd_split (table : List (String × String)) (file : List Nat)
    (bo : ByteOrder) (pos : Nat) (m : List (String × MetaVal)) (q : List (Option Nat)) :
    read_ifd table file bo pos m q
      = match ifd_result table file bo pos with
        | Option.none => Option.none
        | some (d, nxt) => some ((ifd_meta table file bo pos m, q ++ d), nxt) := by
  cases hdec : ExifDecoder.decode_bytes bo (readBytes file pos 2) with
  | none => simp [read_ifd, ifd_result, hdec]
  | some n => simp [read_ifd, ifd_result, ifd_meta, hdec, read_entries_split]

theorem ifd_chain_to_spec (table : List (String × String)) (file : List Nat)
    (bo : ByteOrder) (base : Nat) :
    ∀ (cfuel : Nat) (offo : Option Nat) (m : List (String × MetaVal))
      (q : List (Option Nat)),
    (chain_spec table file bo base cfuel offo = Option.none →
      ifd_chain table file bo base cfuel offo (m, q) = Option.none)
    ∧ (∀ tr found, chain_spec table file bo base cfuel offo = some (tr, found) →
        ∃ m', ifd_chain table file bo base cfuel offo (m, q)
          = some ((m', q ++ found), tr)) := by
  intro cfuel
  induction cfuel with
  | zero =>
    intro offo m q
    exact ⟨fun _ => rfl, fun tr found h => by simp [chain_spec] at h⟩
  | succ k ih =>
    intro offo m q
    match offo with
    | Option.none =>
      exact ⟨fun _ => rfl, fun tr found h => by simp [chain_spec] at h⟩
    | some off =>
      by_cases hoff : off > 0
      · simp only [chain_spec, ifd_chain, if_pos hoff]
        rw [read_ifd_split table file bo (base + off) m q,
          read_ifd_split table file bo (base + off) [] []]
        cases hQ : ifd_result table file bo (base + off) with
        | none => exact ⟨fun _ => rfl, fun tr found h => by simp at h⟩
        | some r =>
          obtain ⟨d, nxt⟩ := r
          simp only
          cases hS : chain_spec table file bo base k nxt with
          | none =>
            constructor
            · intro _
              rw [(ih nxt (ifd_meta table file bo (base + off) m) (q ++ d)).1 hS]
              rfl
            · intro tr found h
              simp at h
          | some s =>
            obtain ⟨tr', found'⟩ := s
            constructor
            · intro h
              simp at h
            · intro tr found h
              simp only [Option.map_some', Option.some.injEq, Prod.mk.injEq] at h
              obtain ⟨htr, hfound⟩ := h
              obtain ⟨m', hm'⟩ :=
                (ih nxt (ifd_meta table file bo (base + off) m) (q ++ d)).2 tr' found' hS
              refine ⟨m', ?_⟩
              rw [hm']
              simp only [Option.map_some']
              rw [← htr, ← hfound]
              simp [List.append_assoc]
      · have hz : off = 0 := by omega
        subst hz
        constructor
        · intro h
          simp [chain_spec] at h
        · intro tr found h
          simp only [chain_spec, gt_iff_lt, Nat.lt_irrefl, if_false,
            Option.some.injEq, Prod.mk.injEq] at h
          obtain ⟨h1, h2⟩ := h
          refine ⟨m, ?_⟩
          simp [ifd_chain, ← h1, ← h2]

theorem subifd_drain_to_spec (table : List (String × String)) (file : List Nat)
    (bo : ByteOrder) (base cfuel : Nat) :
    ∀ (qfuel : Nat) (queue : List (Option Nat)) (m : List (String × MetaVal)),
    (drain_spec table file bo base cfuel qfuel queue = Option.none →
      subifd_drain table file bo base cfuel qfuel (m, queue) = Option.none)
    ∧ (∀ tr, drain_spec table file bo base cfuel qfuel queue = some tr →
        ∃ m', subifd_drain table file bo base cfuel qfuel (m, queue)
          = some ((m', []), tr)) := by
  intro qfuel
  induction qfuel with
  | zero =>
    intro queue m
    match queue with
    | [] =>
      exact ⟨fun h => by simp [drain_spec] at h,
        fun tr h => by
          simp only [drain_spec, Option.some.injEq] at h
          exact ⟨m, by rw [← h]; rfl⟩⟩
    | _ :: _ => exact ⟨fun _ => rfl, fun tr h => by simp [drain_spec] at h⟩
  | succ k ih =>
    intro queue m
    match queue with
    | [] =>
      exact ⟨fun h => by simp [drain_spec] at h,
        fun tr h => by
          simp only [drain_spec, Option.some.injEq] at h
          exact ⟨m, by rw [← h]; rfl⟩⟩
    | offo :: pending =>
      simp only [drain_spec, subifd_drain]
      cases hC : chain_spec table file bo base cfuel offo with
      | none =>
        rw [(ifd_chain_to_spec table file bo base cfuel offo m pending).1 hC]
        exact ⟨fun _ => rfl, fun tr h => by simp at h⟩
      | some r =>
        obtain ⟨tr0, found⟩ := r
        obtain ⟨m1, hm1⟩ :=
          (ifd_chain_to_spec table file bo base cfuel offo m pending).2 tr0 found hC
        rw [hm1]
        simp only
        cases hD : drain_spec table file bo base cfuel k (pending ++ found) with
        | none =>
          rw [(ih (pending ++ found) m1).1 hD]
          exact ⟨fun _ => rfl, fun tr h => by simp at h⟩
        | some tr1 =>
          obtain ⟨m2, hm2⟩ := (ih (pending ++ found) m1).2 tr1 hD
          rw [hm2]
          refine ⟨fun h => by simp at h, fun tr h => ?_⟩
          simp only [Option.map_some', Option.some.injEq] at h
          exact ⟨m2, by simp [← h]⟩

/-- C3: the IFD-processing order of `read_app1_exif` — for every file,
byte order, TIFF base, IFD0 offset, initial dictionary and fuel, the
sequence of IFD offsets the source's two nested while loops visit equals
the spec's order: the whole main chain from IFD0 first, then a FIFO
drain of the discovered sub-IFD offsets in which each dequeued offset's
own chain is followed to its end (next offset 0) — enqueuing newly
discovered offsets at the back — before the next offset is dequeued. -/
theorem read_app1_exif_order (table : List (String × String)) (file : List Nat)
    (bo : ByteOrder) (base ifd0 : Nat) (m : List (String × MetaVal))
    (cfuel qfuel : Nat) :
    (read_app1_exif_walk table file bo base ifd0 m cfuel qfuel).map Prod.snd
      = ifd_order_spec table file bo base ifd0 cfuel qfuel := by
  unfold read_app1_exif_walk ifd_order_spec
  cases hC : chain_spec table file bo base cfuel (some ifd0) with
  | none =>
    rw [(ifd_chain_to_spec table file bo base cfuel (some ifd0) m []).1 hC]
    rfl
  | some r =>
    obtain ⟨tr, found⟩ := r
    obtain ⟨m1, hm1⟩ :=
      (ifd_chain_to_spec table file bo base cfuel (some ifd0) m []).2 tr found hC
    rw [hm1]
    simp only [List.nil_append]
    cases hD : drain_spec table file bo base cfuel qfuel found with
    | none =>
      rw [(subifd_drain_to_spec table file bo base cfuel qfuel found m1).1 hD]
      rfl
    | some tr1 =>
      obtain ⟨m2, hm2⟩ := (subifd_drain_to_spec table file bo base cfuel qfuel found m1).2 tr1 hD
      rw [hm2]
      rfl

/-- C2: a directory entry whose decoded tag id is 34665, 34853 or 40965
appends exactly the unsigned 32-bit decode (under the active byte
order) of its 4-byte value field to the sub-IFD queue and leaves the
metadata dictionary untouched; `read_ifd` then returns the decode of the
trailing 4 bytes after the entry table as the next-IFD offset; and a
chain offset of 0 terminates the chain walk without reading another
IFD. -/
theorem read_ifd_pointer_tags (table : List (String × String)) (file : List Nat)
    (bo : ByteOrder) (pos : Nat) (meta : List (String × MetaVal))
    (q : List (Option Nat))
    (htag : ExifDecoder.decode_bytes bo (readBytes file pos 2) = some 34665
        ∨ ExifDecoder.decode_bytes bo (readBytes file pos 2) = some 34853
        ∨ ExifDecoder.decode_bytes bo (readBytes file pos 2) = some 40965)
    (hroom : pos + 12 ≤ file.length) :
    read_entry table file bo pos (meta, q)
        = ((meta, q ++ [some (unpackU32 bo (readBytes file (pos + 8) 4))]), pos + 12)
    ∧ (∀ p n, ExifDecoder.decode_bytes bo (readBytes file p 2) = some n →
        p + 2 ≤ file.length →
        read_ifd table file bo p meta q
          = some ((read_entries table file bo n (p + 2) (meta, q)).1,
              ExifDecoder.decode_bytes bo
                (readBytes file ((read_entries table file bo n (p + 2) (meta, q)).2) 4)))
    ∧ (∀ (base cfuel : Nat) (st : List (String × MetaVal) × List (Option Nat)),
        ifd_chain table file bo base (cfuel + 1) (some 0) st = some (st, [])) := by
  refine ⟨?_, fun p n hn hp2 => ?_, fun base cfuel st => ?_⟩
  · have l1 : (readBytes file pos 2).length = 2 := readBytes_length _ _ _ (by omega)
    have l2 : (readBytes file (pos + 2) 2).length = 2 := readBytes_length _ _ _ (by omega)
    have l3 : (readBytes file (pos + 2 + 2) 4).length = 4 := readBytes_length _ _ _ (by omega)
    have e8 : pos + 2 + 2 + 4 = pos + 8 := by omega
    have l4 : (readBytes file (pos + 8) 4).length = 4 := readBytes_length _ _ _ (by omega)
    have hdec : ExifDecoder.decode_bytes bo (readBytes file (pos + 8) 4)
        = some (unpackU32 bo (readBytes file (pos + 8) 4)) := by
      simp [ExifDecoder.decode_bytes, l4]
    simp only [read_entry, l1, l2, l3, e8, l4]
    rw [if_pos htag, hdec]
  · have lc : (readBytes file p 2).length = 2 := readBytes_length _ _ _ hp2
    simp only [read_ifd, hn, lc]
  · simp [ifd_chain]

/-- C2 witness: on the concrete synthetic IFD0 (one entry with tag 34665
and value-field offset 296), the entry appends exactly `296` to the
queue with no metadata record, and `read_ifd` returns next offset 0. -/
theorem read_ifd_pointer_tags_witness :
    read_entry [] ifdDemoFile ByteOrder.le 2 ([], []) = (([], [some 296]), 14)
    ∧ read_ifd [] ifdDemoFile ByteOrder.le 0 [] []
        = some (([], [some 296]), some 0) := by
  have h := read_ifd_pointer_tags [] ifdDemoFile ByteOrder.le 2 [] []
    (Or.inl (by decide)) (by decide)
  constructor
  · rw [h.1]
    decide
  · rw [h.2.1 0 1 (by decide) (by decide)]
    decide

/-- C7: the XMP element loop writes, for an element with non-empty
trimmed text, a record keyed by the category-mapped namespace and local
name (`dc:creator` with text `Jane` yields `XMP-dcore|creator` with
value `Jane`), and writes nothing for a whitespace-only text — but an
element whose text is absent (Python `None`, as produced for container
elements with no surrounding whitespace) also yields a record, with
value `None`, because `str(None).strip()` is the non-empty `"None"`;
the claim says such an element yields no record. -/
theorem xmp_records_none_text_bug :
    xmp_records [⟨"\x7bhttp://purl.org/dc/elements/1.1/\x7dcreator", some "Jane"⟩] []
      = [("XMP-dcore|creator", (Py.str "Jane", Py.str "", Py.str "", Py.int 1))]
    ∧ xmp_records [⟨"\x7bhttp://purl.org/dc/elements/1.1/\x7dcreator", some "  "⟩] [] = []
    ∧ xmp_records [⟨"\x7bhttp://purl.org/dc/elements/1.1/\x7drights", Option.none⟩] []
      = [("XMP-dcore|rights", (Py.none, Py.str "", Py.str "", Py.int 1))] := by
  refine ⟨by decide, by decide, by decide⟩

/-- C8: when the decoded APP1 payload contains no match of the closing
processing-instruction pattern `<?xpacket end="w"?>` (quotes single or
double, letters case-insensitive), `read_app1_xmp` adds no metadata
records, raises the diagnostic, and returns normally so processing of
the file's other segments continues. -/
theorem read_app1_xmp_no_closing (app1_payload : List Char)
    (parse : List Char → List XmlElem) (meta : List (String × MetaVal))
    (h : searchXpacketEnd app1_payload = Option.none) :
    read_app1_xmp app1_payload parse meta = (meta, true) := by
  simp [read_app1_xmp, h]

/-- C8 witness: a concrete payload with no closing tag yields the
unchanged dictionary and the diagnostic flag. -/
theorem read_app1_xmp_no_closing_witness :
    read_app1_xmp ("<x:xmpmeta></x:xmpmeta>".data) (fun _ => []) [] = ([], true) :=
  read_app1_xmp_no_closing _ _ _ (by decide)

/-- C10: `verify_marker` exits the process exactly when the expected
type is unknown to it or when the type is SOI and the bytes read differ
from `FF D8`; for every other supported type a marker mismatch only
prints an error and the function returns normally with the position
advanced exactly 2 bytes. -/
theorem verify_marker_exit_policy (file : List Nat) (pos : Nat) (mt : String) :
    ((verify_marker file pos mt).exited = true ↔
        mt ∉ knownMarkerTypes ∨ (mt = "SOI" ∧ readBytes file pos 2 ≠ [0xff, 0xd8]))
    ∧ (mt ∈ ["APP0", "APP1", "APP2", "APP3", "APP12", "APP13", "APP14"] →
        readBytes file pos 2 ≠ expectedMarker mt → pos + 2 ≤ file.length →
        verify_marker file pos mt = ⟨pos + 2, false, true⟩) := by
  constructor
  · by_cases hk : mt ∈ knownMarkerTypes
    · fin_cases hk
      · by_cases hm : readBytes file pos 2 = [0xff, 0xd8] <;>
          simp [verify_marker, apply_ite, ite_self, hm, knownMarkerTypes]
      all_goals
        simp [verify_marker, apply_ite, ite_self, knownMarkerTypes]
    · simp [verify_marker, hk]
  · intro hmem hne hroom
    have hl : (readBytes file pos 2).length = 2 := readBytes_length _ _ _ hroom
    fin_cases hmem <;>
      simp_all [verify_marker, expectedMarker, knownMarkerTypes, hl]

/-- C10 witness: with garbage bytes, an expected APP0 only prints and
continues at position 2, while an expected SOI exits. -/
theorem verify_marker_exit_policy_witness :
    verify_marker [0x12, 0x34] 0 "APP0" = ⟨2, false, true⟩
    ∧ (verify_marker [0x12, 0x34] 0 "SOI").exited = true := by
  constructor
  · exact (verify_marker_exit_policy [0x12, 0x34] 0 "APP0").2
      (by decide) (by decide) (by decide)
  · exact (verify_marker_exit_policy [0x12, 0x34] 0 "SOI").1.mpr
      (Or.inr ⟨rfl, by decide⟩)

end JpegSegments
